import Mathlib

/-!
Verification of the oidc-auth-lib authentication core against its specification.

The development shallowly embeds the Python sources:
  * `oidcauthlib/auth/token_reader.py` (TokenReader),
  * `oidcauthlib/auth/well_known_config_manager.py` (the flat manager used by TokenReader),
  * `oidcauthlib/auth/well_known_configuration/well_known_configuration_manager.py`
    (the event-based manager),
  * `oidcauthlib/auth/config/well_known_configuration_cache.py` (the discovery cache).

JSON scalar values are modelled by `PyVal`; Python `None` and JSON `null` coincide, so a
dictionary read of an absent key yields `PyVal.null`, exactly as `dict.get` does after
`json.loads`.  HTTP is modelled as a pure map from URI to response.  The external joserfc
library is modelled by the `JoseLib` record of its operations; cooperative-async code is
embedded sequentially (one coroutine), with lock state elided and suspension that can
never be woken modelled as the `blockedOnEvent` error.
-/

/-- A Python/JSON scalar value. `null` doubles as Python `None`.  Numeric equality
between booleans and integers (Python `True == 1`) is not modelled; no configured
value in this code base is a boolean. -/
inductive PyVal where
  | null
  | pstr (s : String)
  | pnum (n : Int)
  | pbool (b : Bool)
deriving DecidableEq, Repr

/-- A flat JSON object as returned by `response.json()` / `json.loads`. -/
abbrev PyDict := List (String × PyVal)

/-- Python `d.get(k)`: the value stored under `k`, or `None` (here `PyVal.null`) when
absent.  A stored JSON `null` and an absent key are indistinguishable, as in Python. -/
def dictGet (d : PyDict) (k : String) : PyVal :=
  match d.find? (fun kv => kv.1 == k) with
  | some kv => kv.2
  | none => .null

/-- Python truthiness of a scalar: `None`, `""`, `0` and `False` are falsy. -/
def PyVal.truthy : PyVal → Bool
  | .null => false
  | .pstr s => !s.isEmpty
  | .pnum n => n != 0
  | .pbool b => b

/-- Python `a or b`: `a` when truthy, else `b`. -/
def pyOr (a b : PyVal) : PyVal := if a.truthy then a else b

/-- Truthiness of an optional string attribute (`None` and `""` are falsy). -/
def optStrTruthy : Option String → Bool
  | none => false
  | some s => !s.isEmpty

/-- Python whitespace for `str.split()` / `str.isspace` (ASCII range). -/
def isPySpace (c : Char) : Bool :=
  c == ' ' || c == '\t' || c == '\n' || c == '\r' || c == '\x0b' || c == '\x0c'

/-- One step of `pySplit`, consuming a character from the left of the remainder. -/
def pySplitStep (c : Char) (acc : List Char × List String) : List Char × List String :=
  if isPySpace c then
    ([], if acc.1.isEmpty then acc.2 else String.mk acc.1 :: acc.2)
  else
    (c :: acc.1, acc.2)

/-- Python `s.split()` with no separator argument: split on runs of whitespace,
discarding leading, trailing and empty fields. -/
def pySplit (s : String) : List String :=
  let r := s.toList.foldr pySplitStep ([], [])
  if r.1.isEmpty then r.2 else String.mk r.1 :: r.2

/-- Python `s.lower()` on the ASCII range (header schemes are ASCII). -/
def pyLower (s : String) : String := String.mk (s.toList.map Char.toLower)

/-- Translation of `TokenReader.extract_token` (token_reader.py lines 152-166):
return `parts[1]` when the header splits into exactly two whitespace-separated parts
whose first part lowercases to "bearer"; otherwise `None`.  A `None` or empty header
is falsy and yields `None`. -/
def extract_token (authorization_header : Option String) : Option String :=
  match authorization_header with
  | none => none
  | some h =>
    if h.isEmpty then none
    else
      match pySplit h with
      | [scheme, tok] => if pyLower scheme = "bearer" then some tok else none
      | _ => none

/-- Modelled from the spec: `AuthConfig` (config/auth_config.py is not under src/).
Spec section 3: `audience` is a required string; `issuer` and `wellKnownUri` are
optional; `providerId` (`auth_provider` in the source) is an opaque identifier.
Only the fields read by the in-src code are modelled. -/
structure AuthConfig where
  auth_provider : String
  audience : String
  issuer : Option String
  well_known_uri : Option String
deriving DecidableEq, Repr

/-- A single JSON Web Key as the raw JSON object fetched from a JWKS endpoint. -/
structure Jwk where
  fields : List (String × PyVal)
deriving DecidableEq, Repr

/-- The value stored under "kid" in a JWK object (`key.get("kid")`). -/
def jwkKid (k : Jwk) : PyVal := dictGet k.fields "kid"

/-- Translation of `ClientKeySet` (models/client_key_set.py).  `jwks` is the list of
keys imported by `KeySet.import_key_set`; `kids` keeps the optionality of the pydantic
field `kids: list[str] | None` (the runtime values are whatever `key.get("kid")`
returned, the `cast(str, ...)` in the source being a no-op). -/
structure ClientKeySet where
  auth_config : AuthConfig
  well_known_config : Option PyDict
  jwks : List Jwk
  kids : Option (List PyVal)
deriving DecidableEq, Repr

/-- An HTTP response, as the code consumes it after `response.json()`.  `body` is the
flat JSON object; `jwkeys` surfaces `response.json().get("keys", ...)` parsed as a list
of JWK objects — the only nested field the code ever reads.  `statusErr` stands for a
non-2xx status (`raise_for_status`), `connectErr` for `httpx.ConnectError`. -/
inductive HttpResult where
  | ok (body : PyDict) (jwkeys : Option (List Jwk))
  | statusErr (code : Nat)
  | connectErr
deriving Repr

/-- The network, as a pure map from URI to response (one `client.get` per call). -/
abbrev HttpWorld := String → HttpResult

/-- Sites of `ValueError` raises in the embedded code, standing for the exception
message at each `raise ValueError(...)`. -/
inductive ValueSite where
  | emptyToken
  | wellKnownUriNotSet
  | discoveryStatus (uri : String) (code : Nat)
  | jwksStatus (uri : String) (code : Nat)
  | jwksUriNotFound
  | issuerNotFound
deriving DecidableEq, Repr

/-- The cause recorded (via `raise ... from e` / the exception chain) inside a
`TokenInvalid` produced by the blanket `except Exception` handler of
`verify_token_async` (token_reader.py lines 353-357). -/
inductive GenericCause where
  | noMatchingJwks (kid : PyVal)
  | joseDecodeFailed (why : String)
  | attributeError (name : String)
  | valueErrorCause (site : ValueSite)
deriving DecidableEq, Repr

/-- Which `AuthorizationBearerTokenInvalidException` was raised; the constructors
mirror the distinct message templates in token_reader.py. -/
inductive InvalidReason where
  | couldNotExtractKid
  | missingAudAndClientId
  | noProviderMatch (issuer audience : PyVal)
  | unverifiedParseFailed
  | generic (expStr nowStr : String) (cause : GenericCause)
deriving DecidableEq, Repr

/-- Which `AuthorizationBearerTokenMissingException` was raised by
`decode_token_async` (token_reader.py lines 195 and 205), by message template. -/
inductive MissingReason where
  | noMatchingJwks (kid : PyVal)
  | invalidDecode (why : String)
deriving DecidableEq, Repr

/-- Exceptions escaping the embedded operations.  The three bearer-token exception
classes live in `oidcauthlib.auth.exceptions` (not under src/); their constructor
arguments are modelled from the call sites in token_reader.py.  `blockedOnEvent`
marks a sequential execution suspending on an event no other coroutine will set. -/
inductive PyErr where
  | valueError (site : ValueSite)
  | connectionError (uri : String)
  | typeError (what : String)
  | blockedOnEvent
  | tokenInvalid (reason : InvalidReason) (token : String)
  | tokenMissing (reason : MissingReason)
  | tokenExpired (expires nowStr : String) (token : String) (issuer audience : PyVal)
deriving DecidableEq, Repr

/-- State of the flat `WellKnownConfigurationManager` (well_known_config_manager.py):
the configured providers, the installed ClientKeySets and the `_loaded` flag.  No code
path in that file ever sets `_loaded` to `True`. -/
structure FlatManagerState where
  auth_configs : List AuthConfig
  client_key_sets : List ClientKeySet
  loaded : Bool
deriving DecidableEq, Repr

/-- Translation of `WellKnownConfigurationManager.fetch_well_known_config_async`
(well_known_config_manager.py lines 105-122). -/
def fetch_well_known_config (world : HttpWorld) (uri : String) : Except PyErr PyDict :=
  if uri.isEmpty then .error (.valueError .wellKnownUriNotSet)
  else
    match world uri with
    | .ok body _ => .ok body
    | .statusErr code => .error (.valueError (.discoveryStatus uri code))
    | .connectErr => .error (.connectionError uri)

/-- Translation of `WellKnownConfigurationManager.get_jwks_uri_async`
(well_known_config_manager.py lines 124-136): require truthy `jwks_uri` and `issuer`
fields in the discovery document, then return the `jwks_uri` value. -/
def get_jwks_uri (wkc : PyDict) : Except PyErr PyVal :=
  let ju := dictGet wkc "jwks_uri"
  let iss := dictGet wkc "issuer"
  if !ju.truthy then .error (.valueError .jwksUriNotFound)
  else if !iss.truthy then .error (.valueError .issuerNotFound)
  else .ok ju

/-- The per-provider de-duplication loop of
`fetch_well_known_config_and_jwks_async` (well_known_config_manager.py lines 76-79):
append a key only when no key with an equal `kid` value is already in the list.  Two
keys both lacking `kid` compare equal (`None == None`), as in Python. -/
def dedupByKid (keys : List Jwk) : List Jwk :=
  keys.foldl
    (fun acc key => if acc.any (fun k => jwkKid k == jwkKid key) then acc else acc ++ [key])
    []

/-- The kids list built at well_known_config_manager.py lines 88-92:
`[key.get("kid") for key in keys if key.get("kid")]`. -/
def truthyKids (keys : List Jwk) : List PyVal :=
  keys.filterMap (fun k => if (jwkKid k).truthy then some (jwkKid k) else none)

/-- One iteration of the provider loop of `fetch_well_known_config_and_jwks_async`
(well_known_config_manager.py lines 49-103): fetch the discovery document, extract the
JWKS URI, fetch the JWKS, de-duplicate its keys by kid within this provider, and build
the provider's ClientKeySet.  `ok none` is a `continue` (skipped provider); the two
skip branches are unreachable given the guards before them but are translated as
written.  A non-string truthy `jwks_uri` would make `client.get` raise, modelled as
`typeError`. -/
def fetchProvider (world : HttpWorld) (cfg : AuthConfig) : Except PyErr (Option ClientKeySet) :=
  if !optStrTruthy cfg.well_known_uri then .ok none
  else
    match fetch_well_known_config world (cfg.well_known_uri.getD "") with
    | .error e => .error e
    | .ok wkc =>
      match get_jwks_uri wkc with
      | .error e => .error e
      | .ok ju =>
        if !ju.truthy then .ok none
        else
          match ju with
          | .pstr u =>
            (match world u with
             | .ok _body jwkeys =>
               let ks := dedupByKid (jwkeys.getD [])
               .ok (some { auth_config := cfg, well_known_config := some wkc,
                           jwks := ks, kids := some (truthyKids ks) })
             | .statusErr code => .error (.valueError (.jwksStatus u code))
             | .connectErr => .error (.connectionError u))
          | _ => .error (.typeError "jwks_uri")

/-- One step of the provider loop of `fetch_well_known_config_and_jwks_async`:
append the provider's ClientKeySet to the accumulator, skip the provider, or
propagate its exception. -/
def fetchStep (world : HttpWorld) (acc : List ClientKeySet) (cfg : AuthConfig) :
    Except PyErr (List ClientKeySet) :=
  match fetchProvider world cfg with
  | .error e => .error e
  | .ok none => .ok acc
  | .ok (some cks) => .ok (acc ++ [cks])

/-- Translation of `WellKnownConfigurationManager.fetch_well_known_config_and_jwks_async`
(well_known_config_manager.py lines 44-103): return unchanged when `_loaded` (never
true in that file), else rebuild `client_key_sets` from scratch over the providers
with a truthy `well_known_uri`.  An exception part-way leaves Python with a partially
rebuilt list; only the error value is modelled on that path, no claim reads the
partial state. -/
def fetch_well_known_config_and_jwks (world : HttpWorld) (st : FlatManagerState) :
    Except PyErr FlatManagerState :=
  if st.loaded then .ok st
  else
    match (st.auth_configs.filter (fun c => optStrTruthy c.well_known_uri)).foldlM
        (fetchStep world) [] with
    | .error e => .error e
    | .ok sets => .ok { st with client_key_sets := sets }

/-- Python `client_key_set.kids and kid in client_key_set.kids`
(well_known_config_manager.py line 149): a `None` or empty kids list is falsy. -/
def kidsTruthyContains (kids : Option (List PyVal)) (kid : PyVal) : Bool :=
  match kids with
  | none => false
  | some l => !l.isEmpty && l.contains kid

/-- Translation of `WellKnownConfigurationManager.get_client_key_set_for_kid`
(well_known_config_manager.py lines 138-151): `None` for a `None` kid, else the first
ClientKeySet whose truthy kids list contains the kid. -/
def get_client_key_set_for_kid (sets : List ClientKeySet) (kid : PyVal) : Option ClientKeySet :=
  if kid = PyVal.null then none
  else sets.find? (fun cks => kidsTruthyContains cks.kids kid)

/-- The parsed compact JWS as the code consumes `jws.extract_compact`: the JOSE
header object (`token_content.headers()`) and the raw payload (`token_content.payload`). -/
structure CompactSig where
  headers : PyDict
  payload : String

/-- Model of the operations of the external joserfc library used by TokenReader.
`extractCompact` is `jws.extract_compact` (`none` = the parse raised);
`jsonLoads` is `json.loads` on a payload (`none` = the parse raised);
`decodeVerify` is `jwt.decode(token, keyset, algorithms=...)`, which verifies the
signature against the key set and parses the payload — per the joserfc design it does
not validate registered claims, so it never raises `ExpiredTokenError`; claim
validation is the separate `JWTClaimsRegistry().validate`. -/
structure JoseLib where
  extractCompact : String → Option CompactSig
  jsonLoads : String → Option PyDict
  decodeVerify : String → List Jwk → Option (List String) → Except String PyDict

/-- Model of joserfc `JWTClaimsRegistry().validate(claims)` as called at
token_reader.py line 334: raises `ExpiredTokenError` (here `error ()`) when a numeric
`exp` claim lies in the past.  In `verify_token_async` this call sits after the
provider-binding loop and is unreachable (see `verify_try`). -/
def validateClaims (claims : PyDict) (now : Int) : Except Unit Unit :=
  match dictGet claims "exp" with
  | .pnum e => if e < now then .error () else .ok ()
  | _ => .ok ()

/-- The failures `get_kid_from_token` can raise: `ValueError` on an empty token, or
`AuthorizationBearerTokenInvalidException` when `jws.extract_compact` raises. -/
inductive KidErr where
  | emptyToken
  | couldNotExtractKid
deriving DecidableEq, Repr

/-- Translation of `TokenReader.get_kid_from_token` (token_reader.py lines 63-82):
extract the compact form and return the header value under "kid" (which is `None`
when the header lacks the field).  The statements after the `raise` in the source
(lines 83-150) are dead code and are not translated. -/
def get_kid_from_token (jose : JoseLib) (token : String) : Except KidErr PyVal :=
  if token.isEmpty then .error .emptyToken
  else
    match jose.extractCompact token with
    | some cs => .ok (dictGet cs.headers "kid")
    | none => .error .couldNotExtractKid

/-- The TokenReader's own fields (token_reader.py lines 49-58): `__init__` assigns
only `uuid`, `algorithms` and `well_known_manager`.  The manager's state is passed
explicitly to each operation; the uuid plays no semantic role. -/
structure TokenReader where
  algorithms : Option (List String)
deriving Repr

/-- Python `token.count(".")`. -/
def countDots (s : String) : Nat := s.toList.count '.'

/-- Translation of `TokenReader.decode_token_async` (token_reader.py lines 168-217).
Empty token: `ValueError`.  Not exactly two dots: `None`.  With signature
verification: refetch the key sets (the manager's `_loaded` is never true), extract
the kid, look up the ClientKeySet — raising `AuthorizationBearerTokenMissingException`
when none matches — then `jwt.decode`; any decode exception is wrapped in
`AuthorizationBearerTokenMissingException` (lines 203-207).  Without verification:
parse the compact form and `json.loads` the payload, wrapping any failure in
`AuthorizationBearerTokenInvalidException`. -/
def decode_token (jose : JoseLib) (rdr : TokenReader) (world : HttpWorld)
    (st : FlatManagerState) (token : String) (verify_signature : Bool) :
    Except PyErr (Option PyDict) :=
  if token.isEmpty then .error (.valueError .emptyToken)
  else if countDots token ≠ 2 then .ok none
  else if verify_signature then
    match fetch_well_known_config_and_jwks world st with
    | .error e => .error e
    | .ok st1 =>
      match get_kid_from_token jose token with
      | .error .emptyToken => .error (.valueError .emptyToken)
      | .error .couldNotExtractKid => .error (.tokenInvalid .couldNotExtractKid token)
      | .ok kid =>
        match get_client_key_set_for_kid st1.client_key_sets kid with
        | none => .error (.tokenMissing (.noMatchingJwks kid))
        | some cks =>
          match jose.decodeVerify token cks.jwks rdr.algorithms with
          | .ok claims => .ok (some claims)
          | .error why => .error (.tokenMissing (.invalidDecode why))
  else
    match jose.extractCompact token with
    | none => .error (.tokenInvalid .unverifiedParseFailed token)
    | some cs =>
      match jose.jsonLoads cs.payload with
      | none => .error (.tokenInvalid .unverifiedParseFailed token)
      | some m => .ok (some m)

/-- Translation of the provider-binding loop of `verify_token_async`
(token_reader.py lines 268-293), as it would execute over a provider list: a provider
matches when the token audience equals its configured audience and, when an issuer is
configured, the token issuer equals it; the loop breaks on the first match.  In
`verify_token_async` the loop is never reached with a provider list: the attribute it
iterates does not exist on TokenReader (see `verify_try`). -/
def token_matches_config (configs : List AuthConfig) (issuer audience : PyVal) : Bool :=
  configs.any (fun cfg =>
    audience == PyVal.pstr cfg.audience &&
    (match cfg.issuer with
     | some ci => issuer == PyVal.pstr ci
     | none => true))

/-- An exception propagating out of the `try` block of `verify_token_async`
(token_reader.py lines 240-337), before the `except` clauses map it: an
`ExpiredTokenError`, an `AuthorizationBearerTokenInvalidException`, or any other
exception together with the `exp_str`/`now_str` locals at the raise point. -/
inductive TryErr where
  | expiredTokenError (expStr nowStr : String) (issuer audience : PyVal)
  | invalidExc (reason : InvalidReason)
  | otherExc (cause : GenericCause) (expStr nowStr : String)
deriving DecidableEq, Repr

/-- Translation of the `try` body of `verify_token_async` (token_reader.py lines
240-337).  After the audience check the code reads `self.auth_configs` (line 269);
`TokenReader.__init__` (lines 49-58) assigns only `uuid`, `algorithms` and
`well_known_manager`, and nothing else in the repository assigns that attribute, so
the read raises `AttributeError` before the loop body can run.  The locals `exp_str`
and `now_str` still hold their initial "None" at every raise point reached. -/
def verify_try (jose : JoseLib) (algorithms : Option (List String))
    (sets : List ClientKeySet) (token : String) : Except TryErr String :=
  match get_kid_from_token jose token with
  | .error .emptyToken => .error (.otherExc (.valueErrorCause .emptyToken) "None" "None")
  | .error .couldNotExtractKid => .error (.invalidExc .couldNotExtractKid)
  | .ok kid =>
    match get_client_key_set_for_kid sets kid with
    | none => .error (.otherExc (.noMatchingJwks kid) "None" "None")
    | some cks =>
      match jose.decodeVerify token cks.jwks algorithms with
      | .error why => .error (.otherExc (.joseDecodeFailed why) "None" "None")
      | .ok claims =>
        let audience := pyOr (dictGet claims "aud") (dictGet claims "client_id")
        if audience = PyVal.null then
          .error (.invalidExc .missingAudAndClientId)
        else
          .error (.otherExc (.attributeError "auth_configs") "None" "None")

/-- Translation of `TokenReader.verify_token_async` (token_reader.py lines 219-357):
guard against an empty token, refetch the key sets, run the `try` body, and map
escaping exceptions exactly as the `except` clauses do — `ExpiredTokenError` to
`AuthorizationBearerTokenExpiredException` carrying the formatted timestamps, issuer,
audience and token; `AuthorizationBearerTokenInvalidException` re-raised unchanged;
anything else wrapped in `AuthorizationBearerTokenInvalidException`.  On success the
code would return `Token.create_from_token(token)`, modelled by the raw token
string. -/
def verify_token (jose : JoseLib) (rdr : TokenReader) (world : HttpWorld)
    (st : FlatManagerState) (token : String) : Except PyErr String :=
  if token.isEmpty then .error (.valueError .emptyToken)
  else
    match fetch_well_known_config_and_jwks world st with
    | .error e => .error e
    | .ok st1 =>
      match verify_try jose rdr.algorithms st1.client_key_sets token with
      | .ok tok => .ok tok
      | .error (.expiredTokenError e n i a) => .error (.tokenExpired e n token i a)
      | .error (.invalidExc r) => .error (.tokenInvalid r token)
      | .error (.otherExc c e n) => .error (.tokenInvalid (.generic e n c) token)

/-- State of the discovery cache `WellKnownConfigurationCache`
(config/well_known_configuration_cache.py): the URI-to-document map.  The per-URI
lock map only serializes fetches and is invisible to a sequential execution. -/
structure CacheState where
  cache : List (String × PyDict)
deriving DecidableEq, Repr

/-- Association-list lookup standing for the dictionary reads
`uri in self._cache` / `self._cache[uri]`. -/
def dictLookup (m : List (String × PyDict)) (k : String) : Option PyDict :=
  match m.find? (fun kv => kv.1 == k) with
  | some kv => some kv.2
  | none => none

/-- Translation of `WellKnownConfigurationCache.get_async`
(config/well_known_configuration_cache.py lines 46-103), sequentially: empty URI
raises `ValueError`; a cache hit returns the stored document without network traffic;
otherwise one HTTP GET is performed and, on success, the parsed document is inserted.
The result carries the outcome, the new cache state and the number of HTTP GETs
performed by the call. -/
def cache_get (world : HttpWorld) (st : CacheState) (uri : String) :
    Except PyErr PyDict × CacheState × Nat :=
  if uri.isEmpty then (.error (.valueError .wellKnownUriNotSet), st, 0)
  else
    match dictLookup st.cache uri with
    | some doc => (.ok doc, st, 0)
    | none =>
      match world uri with
      | .ok body _ => (.ok body, ⟨st.cache ++ [(uri, body)]⟩, 1)
      | .statusErr code => (.error (.valueError (.discoveryStatus uri code)), st, 1)
      | .connectErr => (.error (.connectionError uri), st, 1)

/-- Translation of `WellKnownConfigurationCache.clear`
(config/well_known_configuration_cache.py lines 109-111). -/
def cache_clear (_st : CacheState) : CacheState := ⟨[]⟩

/-- Translation of `WellKnownConfigurationCache.size`
(config/well_known_configuration_cache.py lines 105-107). -/
def cache_size (st : CacheState) : Nat := st.cache.length

/-- State of the event-based `WellKnownConfigurationManager`
(well_known_configuration/well_known_configuration_manager.py): the `_loaded` and
`_initializing` flags, the discovery documents cached by its per-URI cache, and the
ClientKeySets the initialization installs. -/
structure EventManagerState where
  loaded : Bool
  initializing : Bool
  cachedDocs : List (String × PyDict)
  clientKeySets : List ClientKeySet
deriving DecidableEq, Repr

/-- An outbound HTTP GET observed during initialization: a discovery-document fetch
or a JWKS fetch. -/
inductive FetchEvent where
  | discovery (uri : String)
  | jwksFetch (uri : String)
deriving DecidableEq, Repr

/-- Modelled from the spec: the JWKS-loading subroutine (`read_list_async` of the
`well_known_configuration` package cache) is not under src/.  Per spec section 4.3,
steps 4 and 6: for each AuthConfig with a wellKnownUri, fetch the discovery document
through the per-URI cache (an HTTP GET only when the URI is not yet cached), extract
`jwks_uri` (failing the provider when absent), HTTP GET the JWKS, de-duplicate its
keys by kid within the provider, build the provider's ClientKeySet, and install the
list.  HMAC key synthesis (step 5) is omitted: no provider configuration reaching the
claims under verification carries an HMAC secret. -/
def read_list (world : HttpWorld) (configs : List AuthConfig) (st : EventManagerState) :
    Except PyErr (EventManagerState × List FetchEvent) :=
  (configs.filter (fun c => optStrTruthy c.well_known_uri)).foldlM
    (fun (acc : EventManagerState × List FetchEvent) cfg =>
      let uri := cfg.well_known_uri.getD ""
      let cached :=
        match dictLookup acc.1.cachedDocs uri with
        | some doc => Except.ok (doc, acc.1, acc.2)
        | none =>
          match world uri with
          | .ok body _ =>
            Except.ok (body, { acc.1 with cachedDocs := acc.1.cachedDocs ++ [(uri, body)] },
                       acc.2 ++ [FetchEvent.discovery uri])
          | .statusErr code => Except.error (PyErr.valueError (.discoveryStatus uri code))
          | .connectErr => Except.error (PyErr.connectionError uri)
      match cached with
      | .error e => Except.error e
      | .ok (doc, st1, evs1) =>
        match dictGet doc "jwks_uri" with
        | .pstr u =>
          (match world u with
           | .ok _body jwkeys =>
             let ks := dedupByKid (jwkeys.getD [])
             Except.ok
               ({ st1 with clientKeySets := st1.clientKeySets ++
                    [{ auth_config := cfg, well_known_config := some doc,
                       jwks := ks, kids := some (truthyKids ks) }] },
                evs1 ++ [FetchEvent.jwksFetch u])
           | .statusErr code => Except.error (PyErr.valueError (.jwksStatus u code))
           | .connectErr => Except.error (PyErr.connectionError u))
        | _ => Except.error (PyErr.valueError .jwksUriNotFound))
    ({ st with clientKeySets := [] }, [])

/-- Translation of `WellKnownConfigurationManager.ensure_initialized_async`
(well_known_configuration/well_known_configuration_manager.py lines 88-159),
sequentially: fast-path return when `_loaded`; when `_initializing` the caller would
await `_init_event`, which no other coroutine of a sequential execution will set
(`blockedOnEvent`); otherwise this caller initializes — it loads the configs outside
the locks, then sets `_loaded` and clears `_initializing` on success, propagating any
exception after resetting `_initializing` and signalling the event. -/
def ensure_initialized (world : HttpWorld) (configs : List AuthConfig)
    (st : EventManagerState) : Except PyErr (EventManagerState × List FetchEvent) :=
  if st.loaded then .ok (st, [])
  else if st.initializing then .error .blockedOnEvent
  else
    match read_list world configs { st with initializing := true } with
    | .ok (st2, evs) => .ok ({ st2 with loaded := true, initializing := false }, evs)
    | .error e => .error e

/-!
Concrete fixtures: providers, network worlds, joserfc instances and tokens used by
the claim evaluations and witnesses below.  Token strings use three dot-separated
segments so that `countDots` sees a compact JWT shape.
-/

/-- Fixture: a provider with configured issuer and audience. -/
def cfgMain : AuthConfig :=
  ⟨"provider1", "client1", some "https://issuer1", some "https://p1/wk"⟩

/-- Fixture: the RSA key with kid "key1" published by `cfgMain`. -/
def jwkKey1 : Jwk := ⟨[("kty", .pstr "RSA"), ("kid", .pstr "key1")]⟩

/-- Fixture: the discovery document of `cfgMain`. -/
def wkcMain : PyDict :=
  [("jwks_uri", .pstr "https://p1/jwks"), ("issuer", .pstr "https://issuer1")]

/-- Fixture: the network serving `cfgMain`. -/
def worldMain : HttpWorld := fun uri =>
  if uri = "https://p1/wk" then .ok wkcMain none
  else if uri = "https://p1/jwks" then .ok [] (some [jwkKey1])
  else .connectErr

/-- Fixture: a fresh flat manager configured with `cfgMain`. -/
def stMain : FlatManagerState := ⟨[cfgMain], [], false⟩

/-- Fixture: a TokenReader allowing RS256. -/
def rdrMain : TokenReader := ⟨some ["RS256"]⟩

/-- Fixture: the ClientKeySet the flat manager builds for `cfgMain` on `worldMain`. -/
def cksMain : ClientKeySet := ⟨cfgMain, some wkcMain, [jwkKey1], some [.pstr "key1"]⟩

/-- Fixture: claims of a valid, unexpired token issued for `cfgMain`. -/
def claimsOkC1 : PyDict :=
  [("iss", .pstr "https://issuer1"), ("aud", .pstr "client1"),
   ("exp", .pnum 9999999999), ("sub", .pstr "u1")]

/-- Fixture: a joserfc instance under which the token "hC1.pC1.sC1" carries kid
"key1" and verifies against any key set containing that kid. -/
def joseC1 : JoseLib :=
  { extractCompact := fun t =>
      if t = "hC1.pC1.sC1" then
        some ⟨[("kid", .pstr "key1"), ("alg", .pstr "RS256")], "pC1"⟩
      else none
    jsonLoads := fun s => if s = "pC1" then some claimsOkC1 else none
    decodeVerify := fun t ks _ =>
      if t = "hC1.pC1.sC1" && ks.any (fun k => jwkKid k == .pstr "key1") then .ok claimsOkC1
      else .error "bad signature" }

/-- Fixture: claims of a correctly signed token for `cfgMain` whose exp is past. -/
def claimsExpiredC3 : PyDict :=
  [("iss", .pstr "https://issuer1"), ("aud", .pstr "client1"), ("exp", .pnum 100)]

/-- Fixture: a joserfc instance under which the expired token "hC3.pC3.sC3" carries
kid "key1" and verifies against any key set containing that kid. -/
def joseC3 : JoseLib :=
  { extractCompact := fun t =>
      if t = "hC3.pC3.sC3" then some ⟨[("kid", .pstr "key1")], "pC3"⟩ else none
    jsonLoads := fun s => if s = "pC3" then some claimsExpiredC3 else none
    decodeVerify := fun t ks _ =>
      if t = "hC3.pC3.sC3" && ks.any (fun k => jwkKid k == .pstr "key1") then
        .ok claimsExpiredC3
      else .error "bad signature" }

/-- Fixture: an AWS-Cognito-style provider — audience configured, no issuer. -/
def cfgCog : AuthConfig := ⟨"provider2", "client2", none, some "https://p2/wk"⟩

/-- Fixture: the key with kid "key2" published by `cfgCog`. -/
def jwkKey2 : Jwk := ⟨[("kty", .pstr "RSA"), ("kid", .pstr "key2")]⟩

/-- Fixture: the discovery document of `cfgCog`. -/
def wkcCog : PyDict :=
  [("jwks_uri", .pstr "https://p2/jwks"), ("issuer", .pstr "https://issuer2")]

/-- Fixture: the network serving `cfgCog`. -/
def worldCog : HttpWorld := fun uri =>
  if uri = "https://p2/wk" then .ok wkcCog none
  else if uri = "https://p2/jwks" then .ok [] (some [jwkKey2])
  else .connectErr

/-- Fixture: a fresh flat manager configured with `cfgCog`. -/
def stCog : FlatManagerState := ⟨[cfgCog], [], false⟩

/-- Fixture: claims carrying `client_id` but no `aud` (Cognito access token). -/
def claimsC4a : PyDict :=
  [("iss", .pstr "https://issuer2"), ("client_id", .pstr "client2"),
   ("exp", .pnum 9999999999)]

/-- Fixture: claims carrying neither `aud` nor `client_id`. -/
def claimsC4b : PyDict :=
  [("iss", .pstr "https://issuer2"), ("exp", .pnum 9999999999)]

/-- Fixture: a joserfc instance under which the tokens "hC4a.pC4a.sC4a" and
"hC4b.pC4b.sC4b" carry kid "key2" and verify against key sets containing it,
yielding `claimsC4a` and `claimsC4b` respectively. -/
def joseC4 : JoseLib :=
  { extractCompact := fun t =>
      if t = "hC4a.pC4a.sC4a" || t = "hC4b.pC4b.sC4b" then
        some ⟨[("kid", .pstr "key2")], "pC4"⟩
      else none
    jsonLoads := fun _ => none
    decodeVerify := fun t ks _ =>
      if ks.any (fun k => jwkKid k == .pstr "key2") then
        if t = "hC4a.pC4a.sC4a" then .ok claimsC4a
        else if t = "hC4b.pC4b.sC4b" then .ok claimsC4b
        else .error "bad signature"
      else .error "bad signature" }

/-- Fixture: first of two providers publishing the same kid "shared". -/
def cfgP1 : AuthConfig := ⟨"p1", "aud1", none, some "https://c2p1/wk"⟩

/-- Fixture: second of two providers publishing the same kid "shared". -/
def cfgP2 : AuthConfig := ⟨"p2", "aud2", none, some "https://c2p2/wk"⟩

/-- Fixture: provider p1's key with the shared kid. -/
def jwkSharedA : Jwk := ⟨[("kid", .pstr "shared"), ("n", .pstr "keyA")]⟩

/-- Fixture: provider p2's distinct key carrying the same shared kid. -/
def jwkSharedB : Jwk := ⟨[("kid", .pstr "shared"), ("n", .pstr "keyB")]⟩

/-- Fixture: provider p2's second key. -/
def jwkK2 : Jwk := ⟨[("kid", .pstr "k2"), ("n", .pstr "keyC")]⟩

/-- Fixture: discovery document of `cfgP1`. -/
def wkcP1 : PyDict :=
  [("jwks_uri", .pstr "https://c2p1/jwks"), ("issuer", .pstr "https://i1")]

/-- Fixture: discovery document of `cfgP2`. -/
def wkcP2 : PyDict :=
  [("jwks_uri", .pstr "https://c2p2/jwks"), ("issuer", .pstr "https://i2")]

/-- Fixture: the network serving both colliding providers. -/
def worldC2 : HttpWorld := fun uri =>
  if uri = "https://c2p1/wk" then .ok wkcP1 none
  else if uri = "https://c2p1/jwks" then .ok [] (some [jwkSharedA])
  else if uri = "https://c2p2/wk" then .ok wkcP2 none
  else if uri = "https://c2p2/jwks" then .ok [] (some [jwkSharedB, jwkK2])
  else .connectErr

/-- Fixture: a fresh flat manager configured with both colliding providers. -/
def stC2 : FlatManagerState := ⟨[cfgP1, cfgP2], [], false⟩

/-- Fixture: the ClientKeySet built for `cfgP1` on `worldC2`. -/
def c2S1 : ClientKeySet := ⟨cfgP1, some wkcP1, [jwkSharedA], some [.pstr "shared"]⟩

/-- Fixture: the ClientKeySet built for `cfgP2` on `worldC2`; its kids still list
"shared". -/
def c2S2 : ClientKeySet :=
  ⟨cfgP2, some wkcP2, [jwkSharedB, jwkK2], some [.pstr "shared", .pstr "k2"]⟩

/-- Fixture: the manager state after fetching on `worldC2`. -/
def c2State : FlatManagerState := ⟨[cfgP1, cfgP2], [c2S1, c2S2], false⟩

/-- Fixture: a provider for the decode claims. -/
def cfgC6 : AuthConfig := ⟨"provider6", "client6", none, some "https://p6/wk"⟩

/-- Fixture: the key with kid "key6" published by `cfgC6`. -/
def jwkKey6 : Jwk := ⟨[("kty", .pstr "RSA"), ("kid", .pstr "key6")]⟩

/-- Fixture: the discovery document of `cfgC6`. -/
def wkcC6 : PyDict :=
  [("jwks_uri", .pstr "https://p6/jwks"), ("issuer", .pstr "https://issuer6")]

/-- Fixture: the network serving `cfgC6`. -/
def worldC6 : HttpWorld := fun uri =>
  if uri = "https://p6/wk" then .ok wkcC6 none
  else if uri = "https://p6/jwks" then .ok [] (some [jwkKey6])
  else .connectErr

/-- Fixture: a fresh flat manager configured with `cfgC6`. -/
def stC6 : FlatManagerState := ⟨[cfgC6], [], false⟩

/-- Fixture: the ClientKeySet built for `cfgC6` on `worldC6`. -/
def cksC6 : ClientKeySet := ⟨cfgC6, some wkcC6, [jwkKey6], some [.pstr "key6"]⟩

/-- Fixture: claims returned for the verifiable decode token. -/
def claimsC6 : PyDict := [("aud", .pstr "client6"), ("sub", .pstr "u6")]

/-- Fixture: a joserfc instance with three tokens — "hA.pA.sA" carries an unknown
kid, "h6.p6.s6" carries kid "key6" but fails signature verification, and
"hC.pC.sC" carries kid "key6" and verifies to `claimsC6`. -/
def joseC6 : JoseLib :=
  { extractCompact := fun t =>
      if t = "hA.pA.sA" then some ⟨[("kid", .pstr "nope")], "pA"⟩
      else if t = "h6.p6.s6" then some ⟨[("kid", .pstr "key6")], "p6"⟩
      else if t = "hC.pC.sC" then some ⟨[("kid", .pstr "key6")], "pC"⟩
      else none
    jsonLoads := fun _ => none
    decodeVerify := fun t ks _ =>
      if t = "hC.pC.sC" && ks.any (fun k => jwkKid k == .pstr "key6") then .ok claimsC6
      else .error "bad signature" }

/-- Fixture: a joserfc instance for the unverified decode paths — "m1.m2.m3" fails
compact parsing, "j1.j2.j3" parses but its payload fails JSON parsing, and
"g1.g2.g3" parses fully to `claimsC6`. -/
def joseC7 : JoseLib :=
  { extractCompact := fun t =>
      if t = "j1.j2.j3" then some ⟨[("kid", .pstr "key6")], "badjson"⟩
      else if t = "g1.g2.g3" then some ⟨[("kid", .pstr "key6")], "goodjson"⟩
      else none
    jsonLoads := fun s => if s = "goodjson" then some claimsC6 else none
    decodeVerify := fun _ _ _ => .error "not used" }

/-- Fixture: a fresh event-based manager state. -/
def e8Init : EventManagerState := ⟨false, false, [], []⟩

/-- Fixture: the event-based manager state after initializing against `worldMain`
with `cfgMain`. -/
def e8After : EventManagerState :=
  ⟨true, false, [("https://p1/wk", wkcMain)], [cksMain]⟩

/-- Fixture: URI and document for the discovery-cache witness. -/
def uriC9 : String := "https://p9/wk"

/-- Fixture: the discovery document served at `uriC9`. -/
def bodyC9 : PyDict := [("issuer", .pstr "https://i9"), ("jwks_uri", .pstr "https://p9/jwks")]

/-- Fixture: a network serving `uriC9`. -/
def worldC9 : HttpWorld := fun uri =>
  if uri = uriC9 then .ok bodyC9 none else .connectErr

/-- Fixture: a network answering every request with HTTP 500. -/
def worldC9bad : HttpWorld := fun _ => .statusErr 500

/-- Fixture: a network refusing every connection. -/
def worldC9down : HttpWorld := fun _ => .connectErr

/-- Fixture: a joserfc instance whose token "h10.p10.s10" parses to a JOSE header
without a kid field. -/
def joseC10 : JoseLib :=
  { extractCompact := fun t =>
      if t = "h10.p10.s10" then some ⟨[("alg", .pstr "RS256")], "p10"⟩ else none
    jsonLoads := fun _ => none
    decodeVerify := fun _ _ _ => .error "not used" }

/-- C5 (confirmed): `extract_token` is a pure function returning the token part for
exactly the values consisting of two whitespace-separated parts whose first part is
"bearer" case-insensitively, and `None` for every other input; the seven enumerated
cases hold, and the final conjunct characterizes the accepted shape exactly. -/
theorem c5_extract_token_spec :
    extract_token none = none ∧
    extract_token (some "") = none ∧
    extract_token (some "Bearer X") = some "X" ∧
    extract_token (some "bearer X") = some "X" ∧
    extract_token (some "Basic X") = none ∧
    extract_token (some "Bearer") = none ∧
    extract_token (some "Bearer A B") = none ∧
    ∀ h t, (extract_token (some h) = some t ↔
      ∃ sch, pySplit h = [sch, t] ∧ pyLower sch = "bearer") := by
  refine ⟨rfl, rfl, rfl, rfl, rfl, rfl, rfl, ?_⟩
  intro h t
  simp only [extract_token]
  by_cases hE : h.isEmpty
  · have he : h = "" := (String.isEmpty_iff h).mp hE
    subst he
    simp [pySplit]
  · simp only [hE, if_false, Bool.false_eq_true]
    rcases hp : pySplit h with _ | ⟨a, _ | ⟨b, _ | ⟨c, rest⟩⟩⟩
    · simp
    · simp
    · by_cases hb : pyLower a = "bearer"
      · simp only [hb, if_true]
        constructor
        · rintro h2
          injection h2 with h2
          exact ⟨a, by rw [h2], hb⟩
        · rintro ⟨sch, heq, _⟩
          injection heq with h1 h2
          injection h2 with h2 _
          rw [h2]
      · simp only [hb, if_false]
        constructor
        · rintro h2
          exact absurd h2 (by simp)
        · rintro ⟨sch, heq, hsch⟩
          injection heq with h1 h2
          exact absurd hsch (h1 ▸ hb)
    · constructor
      · rintro h2
        exact absurd h2 (by simp)
      · rintro ⟨sch, heq, _⟩
        simp at heq

/-- C1 (code_bug evaluation): the provider-binding predicate of verify_token_async
lines 268-293 accepts this valid token's issuer and audience for the configured
provider, the flat manager builds the expected ClientKeySet, and the token's
signature verifies against it — yet `verify_token` answers
`AuthorizationBearerTokenInvalidException` whose cause is the `AttributeError` on
the undefined `self.auth_configs`, instead of binding the token and succeeding. -/
theorem c1_provider_binding_attribute_bug :
    token_matches_config [cfgMain] (.pstr "https://issuer1") (.pstr "client1") = true ∧
    fetch_well_known_config_and_jwks worldMain stMain = .ok ⟨[cfgMain], [cksMain], false⟩ ∧
    joseC1.decodeVerify "hC1.pC1.sC1" cksMain.jwks (some ["RS256"]) = .ok claimsOkC1 ∧
    verify_token joseC1 rdrMain worldMain stMain "hC1.pC1.sC1" =
      .error (.tokenInvalid (.generic "None" "None" (.attributeError "auth_configs"))
        "hC1.pC1.sC1") :=
  ⟨rfl, rfl, rfl, rfl⟩

/-- C3 (code_bug evaluation): this correctly signed token is expired per the claims
registry model, and its signature verifies against the provider's keys, yet
`verify_token` answers `AuthorizationBearerTokenInvalidException` (cause: the
`AttributeError` on `self.auth_configs`, raised before the claims-validation call at
line 334 can run) rather than `AuthorizationBearerTokenExpiredException`. -/
theorem c3_expired_token_raises_invalid_bug :
    validateClaims claimsExpiredC3 1000 = .error () ∧
    joseC3.decodeVerify "hC3.pC3.sC3" cksMain.jwks (some ["RS256"]) = .ok claimsExpiredC3 ∧
    verify_token joseC3 rdrMain worldMain stMain "hC3.pC3.sC3" =
      .error (.tokenInvalid (.generic "None" "None" (.attributeError "auth_configs"))
        "hC3.pC3.sC3") :=
  ⟨rfl, rfl, rfl⟩

/-- C4 (code_bug evaluation): the audience read falls back from `aud` to
`client_id` (first conjunct), the binding predicate would match the issuerless
provider on that fallback audience (second conjunct), and a signature-valid token
carrying neither claim is rejected with the missing-aud-and-client_id
`AuthorizationBearerTokenInvalidException` (third conjunct) — but the token carrying
only a matching `client_id` still ends in the `AttributeError`-caused
`TokenInvalid` instead of matching its provider (fourth conjunct). -/
theorem c4_audience_fallback_bug :
    pyOr (dictGet claimsC4a "aud") (dictGet claimsC4a "client_id") = .pstr "client2" ∧
    token_matches_config [cfgCog] (dictGet claimsC4a "iss") (.pstr "client2") = true ∧
    verify_token joseC4 rdrMain worldCog stCog "hC4b.pC4b.sC4b" =
      .error (.tokenInvalid .missingAudAndClientId "hC4b.pC4b.sC4b") ∧
    verify_token joseC4 rdrMain worldCog stCog "hC4a.pC4a.sC4a" =
      .error (.tokenInvalid (.generic "None" "None" (.attributeError "auth_configs"))
        "hC4a.pC4a.sC4a") :=
  ⟨rfl, rfl, rfl, rfl⟩

/-- C2 (counterexample): after fetching on a network where both providers publish
kid "shared", the lookup for "shared" answers provider p1's ClientKeySet, while
provider p2's ClientKeySet — a different entry of the installed list — still lists
"shared" among its kids: the duplicate was not dropped across providers, refuting
the claimed exclusivity. -/
theorem c2_cross_provider_kid_counterexample :
    fetch_well_known_config_and_jwks worldC2 stC2 = .ok c2State ∧
    get_client_key_set_for_kid c2State.client_key_sets (.pstr "shared") = some c2S1 ∧
    c2State.client_key_sets.get? 1 = some c2S2 ∧
    c2S1.auth_config.auth_provider = "p1" ∧
    c2S2.auth_config.auth_provider = "p2" ∧
    kidsTruthyContains c2S2.kids (.pstr "shared") = true :=
  ⟨rfl, rfl, rfl, rfl, rfl, rfl⟩

/-- The dedup fold preserves pairwise-distinct kid values of its accumulator. -/
theorem dedup_fold_pairwise (keys : List Jwk) :
    ∀ acc : List Jwk, acc.Pairwise (fun a b => jwkKid a ≠ jwkKid b) →
      (keys.foldl (fun acc key =>
          if acc.any (fun k => jwkKid k == jwkKid key) then acc else acc ++ [key])
        acc).Pairwise (fun a b => jwkKid a ≠ jwkKid b) := by
  induction keys with
  | nil => intro acc h; exact h
  | cons key ks ih =>
    intro acc h
    simp only [List.foldl_cons]
    by_cases hA : acc.any (fun k => jwkKid k == jwkKid key) = true
    · simpa [hA] using ih acc h
    · have hA2 := Bool.not_eq_true _ |>.mp hA
      have hall := List.any_eq_false.mp hA2
      have hpair : (acc ++ [key]).Pairwise (fun a b => jwkKid a ≠ jwkKid b) := by
        refine List.pairwise_append.mpr ⟨h, List.pairwise_singleton _ _, ?_⟩
        intro a ha b hb
        have hb2 : b = key := by simpa using hb
        subst hb2
        have := hall a ha
        simpa using this
      simpa [hA2] using ih (acc ++ [key]) hpair

/-- The per-provider de-duplication of the flat manager fetch yields keys with
pairwise-distinct kid values. -/
theorem dedupByKid_pairwise (keys : List Jwk) :
    (dedupByKid keys).Pairwise (fun a b => jwkKid a ≠ jwkKid b) :=
  dedup_fold_pairwise keys [] (List.Pairwise.nil)

/-- Every member of the truthy-kids projection is the kid value of some key. -/
theorem mem_truthyKids {v : PyVal} {l : List Jwk} (h : v ∈ truthyKids l) :
    ∃ k, k ∈ l ∧ jwkKid k = v := by
  unfold truthyKids at h
  rcases List.mem_filterMap.mp h with ⟨k, hk, hv⟩
  refine ⟨k, hk, ?_⟩
  by_cases ht : (jwkKid k).truthy = true
  · simpa [ht] using hv
  · simp [ht] at hv

/-- Keys with pairwise-distinct kid values project to a duplicate-free kids list. -/
theorem truthyKids_nodup (l : List Jwk)
    (h : l.Pairwise (fun a b => jwkKid a ≠ jwkKid b)) : (truthyKids l).Nodup := by
  induction l with
  | nil => simp [truthyKids]
  | cons k ks ih =>
    rcases List.pairwise_cons.mp h with ⟨hk, hks⟩
    unfold truthyKids
    simp only [List.filterMap_cons]
    by_cases ht : (jwkKid k).truthy = true
    · simp only [ht, if_true]
      refine List.nodup_cons.mpr ⟨?_, ih hks⟩
      intro hmem
      rcases mem_truthyKids hmem with ⟨k2, hk2, hkid⟩
      exact hk k2 hk2 hkid.symm
    · simp only [ht, if_false, Bool.false_eq_true]
      exact ih hks

/-- A ClientKeySet successfully produced by `fetchProvider` carries a kids list of
the shape the fetch builds: the truthy kids of a per-provider de-duplicated key
list. -/
theorem fetchProvider_kids (world : HttpWorld) (cfg : AuthConfig) (cks : ClientKeySet)
    (h : fetchProvider world cfg = .ok (some cks)) :
    ∃ raw, cks.kids = some (truthyKids (dedupByKid raw)) := by
  unfold fetchProvider at h
  split at h
  · exact absurd h (by simp)
  · split at h
    · exact absurd h (by simp)
    · split at h
      · exact absurd h (by simp)
      · split at h
        · exact absurd h (by simp)
        · split at h
          · split at h
            · rename_i jwkeys _
              refine ⟨jwkeys.getD [], ?_⟩
              have h2 := h
              injection h2 with h3
              injection h3 with h4
              rw [← h4]
            · exact absurd h (by simp)
            · exact absurd h (by simp)
          · exact absurd h (by simp)

/-- Every ClientKeySet in the list produced by the fetch fold comes from the
accumulator or from a successful `fetchProvider` call. -/
theorem fetch_fold_members (world : HttpWorld) :
    ∀ (cfgs : List AuthConfig) (acc res : List ClientKeySet),
      cfgs.foldlM (fetchStep world) acc = .ok res →
      ∀ x, x ∈ res → x ∈ acc ∨ ∃ cfg, fetchProvider world cfg = .ok (some x) := by
  intro cfgs
  induction cfgs with
  | nil =>
    intro acc res h x hx
    simp only [List.foldlM_nil] at h
    injection h with h2
    exact Or.inl (h2 ▸ hx)
  | cons c cs ih =>
    intro acc res h x hx
    simp only [List.foldlM_cons] at h
    rcases hp : fetchProvider world c with e | o
    · rw [fetchStep, hp] at h
      exact absurd h (by simp [Bind.bind, Except.bind])
    · rcases o with _ | cks
      · rw [fetchStep, hp] at h
        simp only [Bind.bind, Except.bind] at h
        exact ih acc res h x hx
      · rw [fetchStep, hp] at h
        simp only [Bind.bind, Except.bind] at h
        rcases ih (acc ++ [cks]) res h x hx with hin | hex
        · rcases List.mem_append.mp hin with h1 | h2
          · exact Or.inl h1
          · have : x = cks := by simpa using h2
            exact Or.inr ⟨c, this ▸ hp⟩
        · exact Or.inr hex

/-- C2 (amended): when the lookup answers a ClientKeySet `S` for a kid, that kid is
among S's kids and S is the earliest installed ClientKeySet whose truthy kids list
contains it — the first provider to register a kid owns its lookups; and the flat
manager's de-duplication is per provider: each installed ClientKeySet's kids list is
itself duplicate-free (a later provider's set may still repeat an earlier
provider's kid, as the counterexample shows). -/
theorem c2_lookup_first_owner_within_provider_dedup
    (sets : List ClientKeySet) (kid : PyVal) (S : ClientKeySet)
    (world : HttpWorld) (st st1 : FlatManagerState) :
    (get_client_key_set_for_kid sets kid = some S →
      kidsTruthyContains S.kids kid = true ∧
      ∃ pre suf, sets = pre ++ S :: suf ∧
        ∀ T ∈ pre, kidsTruthyContains T.kids kid = false) ∧
    (st.loaded = false → fetch_well_known_config_and_jwks world st = .ok st1 →
      ∀ cks, cks ∈ st1.client_key_sets → ∀ l, cks.kids = some l → l.Nodup) := by
  constructor
  · intro h
    unfold get_client_key_set_for_kid at h
    by_cases hk : kid = PyVal.null
    · simp [hk] at h
    · simp only [hk, if_false] at h
      rcases List.find?_eq_some.mp h with ⟨hS, pre, suf, heq, hpre⟩
      refine ⟨hS, pre, suf, heq, ?_⟩
      intro T hT
      simpa using hpre T hT
  · intro hL hF cks hmem l hl
    unfold fetch_well_known_config_and_jwks at hF
    rw [hL] at hF
    simp only [Bool.false_eq_true, if_false] at hF
    rcases hfold : (st.auth_configs.filter (fun c => optStrTruthy c.well_known_uri)).foldlM
        (fetchStep world) [] with e | sets2
    · rw [hfold] at hF; exact absurd hF (by simp)
    · rw [hfold] at hF
      injection hF with hF2
      have hsets : st1.client_key_sets = sets2 := by rw [← hF2]
      rw [hsets] at hmem
      rcases fetch_fold_members world _ [] sets2 hfold cks hmem with hin | ⟨cfg, hp⟩
      · simp at hin
      · rcases fetchProvider_kids world cfg cks hp with ⟨raw, hk⟩
        rw [hk] at hl
        injection hl with hl2
        rw [← hl2]
        exact truthyKids_nodup _ (dedupByKid_pairwise raw)

/-- C2 (amended, witness): the lookup/dedup theorem instantiated on the colliding
two-provider fixture: "shared" is among c2S1's kids, and the kids list p2's set
received from the fetch is duplicate-free. -/
theorem c2_lookup_first_owner_witness :
    kidsTruthyContains c2S1.kids (PyVal.pstr "shared") = true ∧
    ([PyVal.pstr "shared", PyVal.pstr "k2"] : List PyVal).Nodup :=
  ⟨((c2_lookup_first_owner_within_provider_dedup [c2S1, c2S2] (.pstr "shared") c2S1
      worldC2 stC2 c2State).1 rfl).1,
   (c2_lookup_first_owner_within_provider_dedup [c2S1, c2S2] (.pstr "shared") c2S1
      worldC2 stC2 c2State).2 rfl rfl c2S2
     (List.Mem.tail c2S1 (List.Mem.head [])) [PyVal.pstr "shared", PyVal.pstr "k2"] rfl⟩

/-- C6 (counterexample): on a network where the token's kid "key6" is matched by a
ClientKeySet (second conjunct — this is not the missing-key case), a signature
verification failure makes `decode_token` raise
`AuthorizationBearerTokenMissingException` — the same exception type as the
missing-key case — not an `AuthorizationBearerTokenInvalidException`, refuting the
claimed TokenInvalid kind for verification failures. -/
theorem c6_decode_failure_type_counterexample :
    fetch_well_known_config_and_jwks worldC6 stC6 = .ok ⟨[cfgC6], [cksC6], false⟩ ∧
    get_client_key_set_for_kid [cksC6] (.pstr "key6") = some cksC6 ∧
    decode_token joseC6 rdrMain worldC6 stC6 "h6.p6.s6" true =
      .error (.tokenMissing (.invalidDecode "bad signature")) :=
  ⟨rfl, rfl, rfl⟩

/-- C6 (amended): for decode with signature verification, a kid matched by no
ClientKeySet raises `AuthorizationBearerTokenMissingException` (no-matching-JWKS
message); a signature verification failure raises the same
`AuthorizationBearerTokenMissingException` type, distinguished only by its
invalid-token message; and a successful verification returns the verified claims
map. -/
theorem c6_decode_outcomes_amended
    (jose : JoseLib) (rdr : TokenReader) (world : HttpWorld) (st st1 : FlatManagerState)
    (tA tB tC : String) (kA kB kC : PyVal) (cksB cksC : ClientKeySet)
    (why : String) (m : PyDict)
    (hfetch : fetch_well_known_config_and_jwks world st = .ok st1)
    (hAne : tA.isEmpty = false) (hAd : countDots tA = 2)
    (hAkid : get_kid_from_token jose tA = .ok kA)
    (hAmiss : get_client_key_set_for_kid st1.client_key_sets kA = none)
    (hBne : tB.isEmpty = false) (hBd : countDots tB = 2)
    (hBkid : get_kid_from_token jose tB = .ok kB)
    (hBcks : get_client_key_set_for_kid st1.client_key_sets kB = some cksB)
    (hBver : jose.decodeVerify tB cksB.jwks rdr.algorithms = .error why)
    (hCne : tC.isEmpty = false) (hCd : countDots tC = 2)
    (hCkid : get_kid_from_token jose tC = .ok kC)
    (hCcks : get_client_key_set_for_kid st1.client_key_sets kC = some cksC)
    (hCver : jose.decodeVerify tC cksC.jwks rdr.algorithms = .ok m) :
    decode_token jose rdr world st tA true = .error (.tokenMissing (.noMatchingJwks kA)) ∧
    decode_token jose rdr world st tB true = .error (.tokenMissing (.invalidDecode why)) ∧
    decode_token jose rdr world st tC true = .ok (some m) := by
  refine ⟨?_, ?_, ?_⟩ <;> unfold decode_token
  · simp [hAne, hAd, hfetch, hAkid, hAmiss]
  · simp [hBne, hBd, hfetch, hBkid, hBcks, hBver]
  · simp [hCne, hCd, hfetch, hCkid, hCcks, hCver]

/-- C6 (amended, witness): the decode outcomes at the three concrete tokens of the
`joseC6` fixture. -/
theorem c6_decode_outcomes_amended_witness :
    decode_token joseC6 rdrMain worldC6 stC6 "hA.pA.sA" true =
      .error (.tokenMissing (.noMatchingJwks (.pstr "nope"))) ∧
    decode_token joseC6 rdrMain worldC6 stC6 "h6.p6.s6" true =
      .error (.tokenMissing (.invalidDecode "bad signature")) ∧
    decode_token joseC6 rdrMain worldC6 stC6 "hC.pC.sC" true = .ok (some claimsC6) :=
  c6_decode_outcomes_amended joseC6 rdrMain worldC6 stC6 ⟨[cfgC6], [cksC6], false⟩
    "hA.pA.sA" "h6.p6.s6" "hC.pC.sC" (.pstr "nope") (.pstr "key6") (.pstr "key6")
    cksC6 cksC6 "bad signature" claimsC6
    rfl rfl rfl rfl rfl rfl rfl rfl rfl rfl rfl rfl rfl rfl rfl

/-- C7 (counterexample): decode of the empty string without signature verification
raises `ValueError` ("Token must not be empty", token_reader.py line 180) instead of
returning `None` as claimed for every string without exactly two dot separators. -/
theorem c7_decode_empty_string_counterexample :
    decode_token joseC7 rdrMain worldC6 stC6 "" false = .error (.valueError .emptyToken) :=
  rfl

/-- C7 (amended): for every NON-empty string without exactly two dot separators,
decode without verification returns `None`; the empty string instead raises
`ValueError`; with exactly two dots, a compact-form or payload parse failure raises
the malformed-token `AuthorizationBearerTokenInvalidException`, and otherwise the
payload JSON is returned as a map — independently of the network and manager state,
no signature being consulted. -/
theorem c7_decode_unverified_amended
    (jose : JoseLib) (rdr : TokenReader) (world : HttpWorld) (st : FlatManagerState)
    (t1 t2 t3 t4 : String) (cs3 cs4 : CompactSig) (m4 : PyDict)
    (h1ne : t1.isEmpty = false) (h1d : countDots t1 ≠ 2)
    (h2ne : t2.isEmpty = false) (h2d : countDots t2 = 2)
    (h2p : jose.extractCompact t2 = none)
    (h3ne : t3.isEmpty = false) (h3d : countDots t3 = 2)
    (h3p : jose.extractCompact t3 = some cs3) (h3j : jose.jsonLoads cs3.payload = none)
    (h4ne : t4.isEmpty = false) (h4d : countDots t4 = 2)
    (h4p : jose.extractCompact t4 = some cs4) (h4j : jose.jsonLoads cs4.payload = some m4) :
    decode_token jose rdr world st t1 false = .ok none ∧
    decode_token jose rdr world st t2 false =
      .error (.tokenInvalid .unverifiedParseFailed t2) ∧
    decode_token jose rdr world st t3 false =
      .error (.tokenInvalid .unverifiedParseFailed t3) ∧
    decode_token jose rdr world st t4 false = .ok (some m4) ∧
    decode_token jose rdr world st "" false = .error (.valueError .emptyToken) ∧
    (∀ world2 st2, decode_token jose rdr world2 st2 t4 false =
      decode_token jose rdr world st t4 false) := by
  refine ⟨?_, ?_, ?_, ?_, rfl, ?_⟩
  · unfold decode_token
    simp [h1ne, h1d]
  · unfold decode_token
    simp [h2ne, h2d, h2p]
  · unfold decode_token
    simp [h3ne, h3d, h3p, h3j]
  · unfold decode_token
    simp [h4ne, h4d, h4p, h4j]
  · intro world2 st2
    unfold decode_token
    simp [h4ne, h4d, h4p, h4j]

/-- C7 (amended, witness): the unverified decode outcomes at the concrete tokens of
the `joseC7` fixture, including independence from the network. -/
theorem c7_decode_unverified_amended_witness :
    decode_token joseC7 rdrMain worldC6 stC6 "nodots" false = .ok none ∧
    decode_token joseC7 rdrMain worldC6 stC6 "m1.m2.m3" false =
      .error (.tokenInvalid .unverifiedParseFailed "m1.m2.m3") ∧
    decode_token joseC7 rdrMain worldC6 stC6 "j1.j2.j3" false =
      .error (.tokenInvalid .unverifiedParseFailed "j1.j2.j3") ∧
    decode_token joseC7 rdrMain worldC6 stC6 "g1.g2.g3" false = .ok (some claimsC6) ∧
    decode_token joseC7 rdrMain worldC9bad stMain "g1.g2.g3" false =
      decode_token joseC7 rdrMain worldC6 stC6 "g1.g2.g3" false :=
  have T := c7_decode_unverified_amended joseC7 rdrMain worldC6 stC6
    "nodots" "m1.m2.m3" "j1.j2.j3" "g1.g2.g3"
    ⟨[("kid", PyVal.pstr "key6")], "badjson"⟩ ⟨[("kid", PyVal.pstr "key6")], "goodjson"⟩
    claimsC6 rfl (by decide) rfl rfl rfl rfl rfl rfl rfl rfl rfl rfl rfl
  ⟨T.1, T.2.1, T.2.2.1, T.2.2.2.1, T.2.2.2.2.2 worldC9bad stMain⟩

/-- C8 (confirmed): `ensure_initialized` is idempotent — any successful call leaves
the loaded flag set, so every subsequent call takes the fast path, returning the
state unchanged (cached documents and installed ClientKeySets included) and
performing zero discovery or JWKS HTTP fetches. -/
theorem c8_ensure_initialized_idempotent (world : HttpWorld) (configs : List AuthConfig)
    (st st1 : EventManagerState) (evs : List FetchEvent)
    (h : ensure_initialized world configs st = .ok (st1, evs)) :
    st1.loaded = true ∧ ensure_initialized world configs st1 = .ok (st1, []) := by
  obtain ⟨sl, si, sd, sk⟩ := st
  cases sl
  · cases si
    · unfold ensure_initialized at h
      simp only [Bool.false_eq_true, if_false] at h
      split at h
      · rename_i st2 evs2 hr
        injection h with h2
        simp only [Prod.mk.injEq] at h2
        obtain ⟨h3, h4⟩ := h2
        subst h3
        exact ⟨rfl, by simp [ensure_initialized]⟩
      · exact absurd h (by simp)
    · unfold ensure_initialized at h
      simp at h
  · unfold ensure_initialized at h
    simp only [if_true] at h
    simp only [Except.ok.injEq, Prod.mk.injEq] at h
    obtain ⟨h3, h4⟩ := h
    subst h3
    exact ⟨rfl, by simp [ensure_initialized]⟩

/-- C8 (witness): after the event-based manager initializes against the one-provider
network, the state carries the loaded flag and a repeated call returns it unchanged
with no fetch events. -/
theorem c8_ensure_initialized_idempotent_witness :
    e8After.loaded = true ∧
    ensure_initialized worldMain [cfgMain] e8After = .ok (e8After, []) :=
  c8_ensure_initialized_idempotent worldMain [cfgMain] e8Init e8After
    [.discovery "https://p1/wk", .jwksFetch "https://p1/jwks"] rfl

/-- Appending a fresh entry to a cache map that misses a key makes lookup of that
key return the new entry. -/
theorem dictLookup_append_self (m : List (String × PyDict)) (uri : String) (body : PyDict)
    (h : dictLookup m uri = none) : dictLookup (m ++ [(uri, body)]) uri = some body := by
  induction m with
  | nil => simp [dictLookup]
  | cons kv m ih =>
    unfold dictLookup at h ih ⊢
    rw [List.find?_cons] at h
    rw [List.cons_append, List.find?_cons]
    by_cases hk : (kv.1 == uri) = true
    · simp only [hk] at h
      exact absurd h (by simp)
    · simp only [Bool.not_eq_true] at hk
      simp only [hk] at h ⊢
      exact ih h

/-- C9 (confirmed): on a cache miss, a successful get performs exactly one HTTP GET
and stores the parsed document; the immediately subsequent get returns that same
document with zero HTTP GETs and an unchanged cache; a non-2xx response and a
connection failure each leave the cache unchanged (so the next call retries); a get
after `clear` fetches afresh; and an empty URI fails without touching network or
cache. -/
theorem c9_cache_get_spec (world wBad wDown : HttpWorld) (st : CacheState) (uri : String)
    (body : PyDict) (jk : Option (List Jwk)) (code : Nat)
    (hne : uri.isEmpty = false)
    (hmiss : dictLookup st.cache uri = none)
    (hok : world uri = .ok body jk)
    (hbad : wBad uri = .statusErr code)
    (hdown : wDown uri = .connectErr) :
    cache_get world st uri = (.ok body, ⟨st.cache ++ [(uri, body)]⟩, 1) ∧
    cache_get world ⟨st.cache ++ [(uri, body)]⟩ uri =
      (.ok body, ⟨st.cache ++ [(uri, body)]⟩, 0) ∧
    cache_get wBad st uri = (.error (.valueError (.discoveryStatus uri code)), st, 1) ∧
    cache_get wDown st uri = (.error (.connectionError uri), st, 1) ∧
    cache_get world (cache_clear st) uri = (.ok body, ⟨[(uri, body)]⟩, 1) ∧
    cache_get world st "" = (.error (.valueError .wellKnownUriNotSet), st, 0) := by
  refine ⟨?_, ?_, ?_, ?_, ?_, rfl⟩
  · unfold cache_get
    simp [hne, hmiss, hok]
  · unfold cache_get
    simp [hne, dictLookup_append_self st.cache uri body hmiss]
  · unfold cache_get
    simp [hne, hmiss, hbad]
  · unfold cache_get
    simp [hne, hmiss, hdown]
  · unfold cache_get
    simp [hne, cache_clear, dictLookup, hok]

/-- C9 (witness): the cache behaviors at the concrete URI and networks of the
discovery-cache fixture. -/
theorem c9_cache_get_spec_witness :
    cache_get worldC9 ⟨[]⟩ uriC9 = (.ok bodyC9, ⟨[(uriC9, bodyC9)]⟩, 1) ∧
    cache_get worldC9 ⟨[(uriC9, bodyC9)]⟩ uriC9 = (.ok bodyC9, ⟨[(uriC9, bodyC9)]⟩, 0) ∧
    cache_get worldC9bad ⟨[]⟩ uriC9 =
      (.error (.valueError (.discoveryStatus uriC9 500)), ⟨[]⟩, 1) ∧
    cache_get worldC9down ⟨[]⟩ uriC9 = (.error (.connectionError uriC9), ⟨[]⟩, 1) ∧
    cache_get worldC9 (cache_clear ⟨[]⟩) uriC9 = (.ok bodyC9, ⟨[(uriC9, bodyC9)]⟩, 1) ∧
    cache_get worldC9 ⟨[]⟩ "" = (.error (.valueError .wellKnownUriNotSet), ⟨[]⟩, 0) :=
  c9_cache_get_spec worldC9 worldC9bad worldC9down ⟨[]⟩ uriC9 bodyC9 none 500
    rfl rfl rfl rfl rfl

/-- C10 (confirmed): `get_client_key_set_for_kid` answers `None` for a `None` kid
against every manager state, without raising; consequently a signature-parseable
token whose JOSE header lacks a kid is matched by no provider's key set, and
`verify_token` rejects it with the no-matching-JWKS TokenInvalid failure. -/
theorem c10_null_kid_never_matches (jose : JoseLib) (rdr : TokenReader) (world : HttpWorld)
    (st st1 : FlatManagerState) (token : String) (cs : CompactSig)
    (hne : token.isEmpty = false)
    (hfetch : fetch_well_known_config_and_jwks world st = .ok st1)
    (hcs : jose.extractCompact token = some cs)
    (hkid : dictGet cs.headers "kid" = .null) :
    (∀ sets : List ClientKeySet, get_client_key_set_for_kid sets PyVal.null = none) ∧
    verify_token jose rdr world st token =
      .error (.tokenInvalid (.generic "None" "None" (.noMatchingJwks PyVal.null)) token) := by
  constructor
  · intro sets
    unfold get_client_key_set_for_kid
    simp
  · unfold verify_token verify_try get_kid_from_token
    simp [hne, hfetch, hcs, hkid, get_client_key_set_for_kid]

/-- C10 (witness): the null-kid behaviors at the concrete kid-less token of the
`joseC10` fixture. -/
theorem c10_null_kid_never_matches_witness :
    get_client_key_set_for_kid [cksMain] PyVal.null = none ∧
    verify_token joseC10 rdrMain worldMain stMain "h10.p10.s10" =
      .error (.tokenInvalid (.generic "None" "None" (.noMatchingJwks PyVal.null))
        "h10.p10.s10") :=
  have T := c10_null_kid_never_matches joseC10 rdrMain worldMain stMain
    ⟨[cfgMain], [cksMain], false⟩ "h10.p10.s10" ⟨[("alg", PyVal.pstr "RS256")], "p10"⟩
    rfl rfl rfl rfl
  ⟨T.1 [cksMain], T.2⟩
